import Mathlib

/-!
Verification development for the Baileys REST backend.

The definitions below are a shallow embedding of the TypeScript sources:

- `Baileys.Webhook.*` embeds `WebhookService` (webhook fan-out, delivery,
  retry with exponential backoff, HMAC signing and verification) together
  with `DatabaseService.getUserWebhooks`.
- `Baileys.Sessions.*` embeds `WhatsAppService` (session registry,
  connection-update state machine, reconnect scheduling, deletion) and the
  `POST /api/sessions` route handler.

Conventions: JavaScript strings that are compared as Node `Buffer`s are
modelled as byte lists (`List Nat`); database tables are lists of rows;
`Map` objects are association lists; `setTimeout` handles are modelled as
explicit pending-work collections; external library calls (the protocol
socket, the HMAC primitive, the QR encoder, HTTP transport) are parameters
of the functions that invoke them. Timestamps (`lastSeen`, `nextRetry`,
`createdAt`) are elided; where a claim concerns a scheduled delay, the
delay value itself is part of the function result.
-/

namespace Baileys

/-- Row of the `session` table (Prisma model `Session`).
Fields used by the embedded code paths; timestamp columns elided. -/
structure SessionRow where
  sessionId : String
  userId : String
  status : String
  isActive : Bool
  qrCode : Option String
  pairingCode : Option String
  phoneNumber : Option String
  name : Option String
deriving DecidableEq, Repr

namespace Webhook

/-- Row of the `webhook` table: owner, endpoint, subscribed events,
optional signing secret, activation flag, consecutive-failure counter
`retries` and its bound `maxRetries` (source: Prisma `webhook` model as
used by `WebhookService`). -/
structure WebhookRow where
  id : String
  userId : String
  url : String
  events : List String
  secret : Option String
  isActive : Bool
  retries : Nat
  maxRetries : Nat
  lastError : Option String
deriving DecidableEq, Repr

/-- DatabaseService.getUserWebhooks: `findMany({ where: { userId, isActive: true } })`. -/
def getUserWebhooks (webhookDb : List WebhookRow) (userId : String) : List WebhookRow :=
  webhookDb.filter (fun w => w.userId == userId && w.isActive)

/-- The filter inside WebhookService.sendWebhook:
`webhooks.filter(w => w.events.includes(event) || w.events.includes('*'))`. -/
def relevantWebhooks (webhooks : List WebhookRow) (event : String) : List WebhookRow :=
  webhooks.filter (fun w => w.events.contains event || w.events.contains "*")

/-- WebhookService.sendWebhook, as the list of webhooks that receive a
delivery attempt (deliverWebhook is invoked exactly once per listed row,
each creating one delivery record): looks up the session row
(`dbService.getSession`), returns nothing when absent, otherwise the
active webhooks of the owning user whose event set matches. -/
def sendWebhookTargets (webhookDb : List WebhookRow) (sessionDb : List SessionRow)
    (sessionId event : String) : List WebhookRow :=
  match sessionDb.find? (fun r => r.sessionId == sessionId) with
  | none => []
  | some session => relevantWebhooks (getUserWebhooks webhookDb session.userId) event

/-- Status column of a `webhookDelivery` row. -/
inductive DeliveryStatus where
  | PENDING
  | RETRYING
  | SUCCESS
  | FAILED
deriving DecidableEq, Repr

/-- Row of the `webhookDelivery` table (fields the embedded paths touch). -/
structure DeliveryRow where
  status : DeliveryStatus
  attempts : Nat
deriving DecidableEq, Repr

/-- Mutable webhook bookkeeping touched by the delivery path. -/
structure WebhookCounters where
  retries : Nat
  maxRetries : Nat
  lastError : Option String
deriving DecidableEq, Repr

/-- Outcome of the `axios.post` call: an HTTP response with some status
code, or a transport-level failure. -/
inductive HttpOutcome where
  | response (status : Nat)
  | transportError
deriving DecidableEq, Repr

/-- WebhookService.calculateRetryDelay: exponential backoff,
`Math.min(Math.pow(2, retryCount) * 1000, 5 * 60 * 1000)` milliseconds. -/
def calculateRetryDelay (retryCount : Nat) : Nat :=
  min (2 ^ retryCount * 1000) (5 * 60 * 1000)

/-- Prisma `findFirst` + `update` pattern on the delivery table: delivery
rows are kept newest first (`orderBy createdAt desc`), and the first row
satisfying the filter is replaced by its update. -/
def updateLatest (p : DeliveryRow → Bool) (f : DeliveryRow → DeliveryRow) :
    List DeliveryRow → List DeliveryRow
  | [] => []
  | d :: rest => if p d then f d :: rest else d :: updateLatest p f rest

/-- WebhookService.updateDeliveryStatus: SUCCESS on a 2xx response status,
FAILED otherwise; increments `attempts`. -/
def updateDeliveryStatus (httpStatus : Nat) (d : DeliveryRow) : DeliveryRow :=
  { d with
    status := if 200 ≤ httpStatus ∧ httpStatus < 300 then .SUCCESS else .FAILED,
    attempts := d.attempts + 1 }

/-- Result of one deliverWebhook call: the webhook counters, the delivery
table (newest first), and the backoff delay of the scheduled retry if one
was scheduled by `setTimeout`. -/
structure DeliverOutcome where
  webhook : WebhookCounters
  deliveries : List DeliveryRow
  scheduledRetryDelay : Option Nat
deriving DecidableEq, Repr

/-- WebhookService.handleWebhookError: re-reads the webhook row (the copy
fetched BEFORE the increment is what the retry decision uses), increments
`retries` and records `lastError`; if the pre-increment counter is below
`maxRetries`, schedules a retry after `calculateRetryDelay` and marks the
latest PENDING delivery RETRYING (incrementing its `attempts`); otherwise
marks the latest PENDING-or-RETRYING delivery FAILED. -/
def handleWebhookError (w : WebhookCounters) (errMsg : String)
    (deliveries : List DeliveryRow) : DeliverOutcome :=
  let updated : WebhookCounters :=
    { w with retries := w.retries + 1, lastError := some errMsg }
  if w.retries < w.maxRetries then
    { webhook := updated,
      deliveries := updateLatest (fun d => d.status == .PENDING)
        (fun d => { d with status := .RETRYING, attempts := d.attempts + 1 }) deliveries,
      scheduledRetryDelay := some (calculateRetryDelay w.retries) }
  else
    { webhook := updated,
      deliveries := updateLatest (fun d => d.status == .PENDING || d.status == .RETRYING)
        (fun d => { d with status := .FAILED }) deliveries,
      scheduledRetryDelay := none }

/-- WebhookService.deliverWebhook: creates a fresh PENDING delivery row,
POSTs the payload; `validateStatus: status < 500` makes axios resolve on
any response below 500, in which case updateDeliveryStatus runs on the
row just created (addressed by its id); a response of 500 or above, or a
transport error, is thrown and handled by handleWebhookError. -/
def deliverWebhook (w : WebhookCounters) (deliveries : List DeliveryRow)
    (outcome : HttpOutcome) : DeliverOutcome :=
  match outcome with
  | .response s =>
    if s < 500 then
      { webhook := w,
        deliveries := updateDeliveryStatus s ⟨.PENDING, 0⟩ :: deliveries,
        scheduledRetryDelay := none }
    else
      handleWebhookError w ("Request failed with status code " ++ toString s)
        (⟨.PENDING, 0⟩ :: deliveries)
  | .transportError =>
    handleWebhookError w "transport error" (⟨.PENDING, 0⟩ :: deliveries)

/-- Result of driving a delivery chain whose attempts all fail. -/
structure FailRunResult where
  webhook : WebhookCounters
  deliveries : List DeliveryRow
  delays : List Nat
  attempts : Nat
deriving DecidableEq, Repr

/-- Drives deliverWebhook against an endpoint whose every attempt fails
with a transport error: each scheduled retry fires and fails again, until
an attempt no longer schedules a retry. `delays` collects the backoff
delay before each retry, `attempts` counts deliverWebhook invocations.
Fuel bounds the recursion; any fuel above `maxRetries + 1` is enough. -/
def runAlwaysFail : Nat → WebhookCounters → List DeliveryRow → FailRunResult
  | 0, w, ds => ⟨w, ds, [], 0⟩
  | fuel + 1, w, ds =>
    let o := deliverWebhook w ds .transportError
    match o.scheduledRetryDelay with
    | none => ⟨o.webhook, o.deliveries, [], 1⟩
    | some delay =>
      let rest := runAlwaysFail fuel o.webhook o.deliveries
      ⟨rest.webhook, rest.deliveries, delay :: rest.delays, rest.attempts + 1⟩

/-- Byte strings: JavaScript strings and Node Buffers are modelled as
their byte lists. -/
abbrev Bytes := List Nat

/-- crypto.timingSafeEqual: throws (modelled `none`) when the two buffers
have different lengths, otherwise returns their equality. -/
def timingSafeEqual (a b : Bytes) : Option Bool :=
  if a.length = b.length then some (decide (a = b)) else none

/-- WebhookService.createSignature:
`crypto.createHmac('sha256', secret).update(payload).digest('hex')`.
The HMAC-SHA256 hex-digest primitive is external library code, passed in
as the parameter `hmacHex` (secret, then message, to hex-digest bytes). -/
def createSignature (hmacHex : Bytes → Bytes → Bytes) (payload secret : Bytes) : Bytes :=
  hmacHex secret payload

/-- WebhookService.verifyWebhookSignature: recomputes the expected
signature and compares with crypto.timingSafeEqual; `none` models the
exception timingSafeEqual throws on a length mismatch. -/
def verifyWebhookSignature (hmacHex : Bytes → Bytes → Bytes)
    (payload signature secret : Bytes) : Option Bool :=
  timingSafeEqual signature (createSignature hmacHex payload secret)

/-- Sample MAC used to instantiate witness statements. -/
def hmacConcat (secret message : Bytes) : Bytes :=
  secret ++ message

/-- Sample fixed-width MAC (64 output bytes, the width of a 64-character
hex digest) used to instantiate witness statements. -/
def hmacFixed64 (secret message : Bytes) : Bytes :=
  List.replicate 64 ((secret.length + message.length) % 256)

end Webhook

namespace Sessions

/-- SessionStatus from types/api.ts. -/
inductive SessionStatus where
  | CONNECTING
  | QR_REQUIRED
  | PAIRING_REQUIRED
  | CONNECTED
  | DISCONNECTED
  | ERROR
deriving DecidableEq, Repr

/-- Identity the protocol socket reports (`socket.user`): a jid of the
form `phone:device@server` and an optional display name. -/
structure WAUser where
  id : String
  name : Option String
deriving DecidableEq, Repr

/-- The slice of the external protocol socket the service reads. -/
structure SocketInfo where
  user : Option WAUser
deriving DecidableEq, Repr

/-- Live WhatsAppSession entry of the in-memory registry
(`WhatsAppService.sessions`); `socket` is `none` while the field is null. -/
structure WhatsAppSession where
  id : String
  socket : Option SocketInfo
  status : SessionStatus
  qrCode : Option String
  pairingCode : Option String
  phoneNumber : Option String
  name : Option String
deriving DecidableEq, Repr

/-- Whole-service state: the live registry (a JavaScript Map, modelled as
an association list in insertion order), the durable session table, and
the session ids with a scheduled (not yet fired) reconnect timer. -/
structure ServiceState where
  sessions : List (String × WhatsAppSession)
  sessionDb : List SessionRow
  pendingReconnects : List String
deriving DecidableEq, Repr

/-- Map.get on the live registry. -/
def sessionsLookup (m : List (String × WhatsAppSession)) (sid : String) :
    Option WhatsAppSession :=
  (m.find? (fun p => p.1 == sid)).map (fun p => p.2)

/-- Map.set on the live registry: replaces the entry when the key is
present, otherwise appends it. -/
def mapSet : List (String × WhatsAppSession) → String → WhatsAppSession →
    List (String × WhatsAppSession)
  | [], sid, s => [(sid, s)]
  | p :: rest, sid, s =>
    if p.1 == sid then (sid, s) :: rest else p :: mapSet rest sid s

/-- Map.delete on the live registry. -/
def mapDelete (m : List (String × WhatsAppSession)) (sid : String) :
    List (String × WhatsAppSession) :=
  m.filter (fun p => !(p.1 == sid))

/-- DatabaseService.updateSession (Prisma update keyed by the unique
`sessionId` column), as used through updateSessionInDatabase, whose
try/catch swallows the update error thrown when the row is absent. -/
def dbUpdateSession (db : List SessionRow) (sid : String)
    (f : SessionRow → SessionRow) : List SessionRow :=
  db.map (fun r => if r.sessionId == sid then f r else r)

/-- Whether the durable store holds a row for this session id
(DatabaseService.getSession is a findUnique on `sessionId` and does not
filter on `isActive`). -/
def dbHasSession (db : List SessionRow) (sid : String) : Bool :=
  (db.find? (fun r => r.sessionId == sid)).isSome

/-- QRCode.toDataURL (external encoder): produces a data-URL image of the
QR payload; modelled as the payload behind the data-URL prefix, which is
in particular always a nonempty string. -/
def qrToDataURL (qr : String) : String :=
  "data:image/png;base64," ++ qr

/-- JavaScript `id.split(":")[0]`: the prefix of the jid before the
first colon (the whole string when no colon occurs). -/
def jidPhone (id : String) : String :=
  String.mk (id.data.takeWhile (fun c => c != ':'))

/-- The `connection` field of a connection.update event; the source
handles only the close and open values. -/
inductive ConnEvent where
  | closed
  | opened
deriving DecidableEq, Repr

/-- A connection.update event as consumed by handleConnectionUpdate:
optional `connection` value, optional raw `qr` payload, and whether the
close reason `lastDisconnect` carries `DisconnectReason.loggedOut`. -/
structure ConnUpdate where
  connection : Option ConnEvent
  qr : Option String
  closeIsLoggedOut : Bool
deriving DecidableEq, Repr

/-- WhatsAppService.handleConnectionUpdate: returns unchanged when the
session id is not live. A `qr` payload sets QR_REQUIRED with the encoded
image (live and durable). Then a close either transitions to CONNECTING
and schedules a 5s reconnect timer (recoverable reason) or to
DISCONNECTED (logged out); an open transitions to CONNECTED, clears
qrCode and pairingCode, and captures phone number (first `:`-segment of
the socket identity jid) and display name when the socket reports a
user. Every branch persists the matching durable update. -/
def handleConnectionUpdate (st : ServiceState) (sid : String) (u : ConnUpdate) :
    ServiceState :=
  match sessionsLookup st.sessions sid with
  | none => st
  | some s0 =>
    let afterQr : ServiceState × WhatsAppSession :=
      match u.qr with
      | some q =>
        let s1 := { s0 with qrCode := some (qrToDataURL q), status := .QR_REQUIRED }
        ({ st with
            sessions := mapSet st.sessions sid s1,
            sessionDb := dbUpdateSession st.sessionDb sid
              (fun r => { r with status := "QR_REQUIRED", qrCode := some (qrToDataURL q) }) },
         s1)
      | none => (st, s0)
    let st1 := afterQr.1
    let s1 := afterQr.2
    match u.connection with
    | some .closed =>
      if u.closeIsLoggedOut = false then
        let s2 := { s1 with status := .CONNECTING }
        { st1 with
            sessions := mapSet st1.sessions sid s2,
            sessionDb := dbUpdateSession st1.sessionDb sid
              (fun r => { r with status := "CONNECTING" }),
            pendingReconnects := sid :: st1.pendingReconnects }
      else
        let s2 := { s1 with status := .DISCONNECTED }
        { st1 with
            sessions := mapSet st1.sessions sid s2,
            sessionDb := dbUpdateSession st1.sessionDb sid
              (fun r => { r with status := "DISCONNECTED" }) }
    | some .opened =>
      let s2 := { s1 with status := .CONNECTED, qrCode := none, pairingCode := none }
      let s3 :=
        match s2.socket.bind (fun so => so.user) with
        | some user =>
          { s2 with phoneNumber := some (jidPhone user.id), name := user.name }
        | none => s2
      { st1 with
          sessions := mapSet st1.sessions sid s3,
          sessionDb := dbUpdateSession st1.sessionDb sid
            (fun r => { r with status := "CONNECTED", phoneNumber := s3.phoneNumber,
                               name := s3.name, qrCode := none }) }
    | none => st1

/-- WhatsAppService.initializeWhatsAppConnection. The external steps
(auth-state load, version fetch, socket creation) either all succeed
(`initOk = true`, yielding a socket whose identity is `user` and whose
credentials registration flag is `registered`) or throw. The returned
Bool is true when the call throws to its caller: on an external failure
the catch block marks a still-registered session ERROR (live and
durable) and rethrows; when the session id is no longer registered the
non-null assertion on the registry lookup fails, the catch block finds no
session to mark, and the error propagates with no state change. -/
def initializeWhatsAppConnection (st : ServiceState) (sid : String)
    (usePairingCode : Bool) (initOk : Bool) (registered : Bool)
    (user : Option WAUser) : ServiceState × Bool :=
  if initOk = false then
    match sessionsLookup st.sessions sid with
    | some s =>
      ({ st with
          sessions := mapSet st.sessions sid { s with status := .ERROR },
          sessionDb := dbUpdateSession st.sessionDb sid
            (fun r => { r with status := "ERROR" }) }, true)
    | none => (st, true)
  else
    match sessionsLookup st.sessions sid with
    | none => (st, true)
    | some s =>
      let s1 := { s with socket := some ⟨user⟩ }
      if usePairingCode = true ∧ registered = false then
        ({ st with
            sessions := mapSet st.sessions sid { s1 with status := .PAIRING_REQUIRED },
            sessionDb := dbUpdateSession st.sessionDb sid
              (fun r => { r with status := "PAIRING_REQUIRED" }) }, false)
      else
        ({ st with sessions := mapSet st.sessions sid s1 }, false)

/-- Outcome of WhatsAppService.createSession. -/
inductive CreateResult where
  | created
  | alreadyExistsLive
  | dbUniqueViolation
  | initError
deriving DecidableEq, Repr

/-- WhatsAppService.createSession: throws `Session already exists` when
the live registry holds the id; otherwise persists a session row (the
Prisma create throws a unique-constraint violation when the durable
store already holds the id), registers a CONNECTING entry in the live
map, and runs initializeWhatsAppConnection, whose failure propagates. -/
def createSession (st : ServiceState) (sid uid : String) (usePairingCode : Bool)
    (initOk : Bool) (registered : Bool) (user : Option WAUser) :
    ServiceState × CreateResult :=
  if (sessionsLookup st.sessions sid).isSome then (st, .alreadyExistsLive)
  else if dbHasSession st.sessionDb sid then (st, .dbUniqueViolation)
  else
    let row : SessionRow := ⟨sid, uid, "CONNECTING", true, none, none, none, none⟩
    let s : WhatsAppSession := ⟨sid, none, .CONNECTING, none, none, none, none⟩
    let st1 : ServiceState :=
      { st with sessionDb := st.sessionDb ++ [row], sessions := mapSet st.sessions sid s }
    let r := initializeWhatsAppConnection st1 sid usePairingCode initOk registered user
    (r.1, if r.2 then .initError else .created)

/-- Response of the `POST /api/sessions` route. -/
inductive RouteResult where
  | created201
  | alreadyExists400
  | thrownAlreadyExists500
  | dbError500
  | initError500
deriving DecidableEq, Repr

/-- Whether a route response reports the `Session already exists` error
(either the explicit 400 from the route duplicate check, or the error
thrown inside WhatsAppService.createSession and surfaced by the error
handler with the same message). -/
def isAlreadyExists : RouteResult → Bool
  | .alreadyExists400 => true
  | .thrownAlreadyExists500 => true
  | _ => false

/-- The `POST /api/sessions` handler: answers 400 `Session already
exists` if the durable store already holds the id (dbService.getSession),
otherwise runs WhatsAppService.createSession; its thrown errors reach
the error-handler middleware via asyncHandler. -/
def postSessionsHandler (st : ServiceState) (sid uid : String)
    (usePairingCode : Bool) (initOk : Bool) (registered : Bool)
    (user : Option WAUser) : ServiceState × RouteResult :=
  if dbHasSession st.sessionDb sid then (st, .alreadyExists400)
  else
    let r := createSession st sid uid usePairingCode initOk registered user
    (r.1,
      match r.2 with
      | .created => .created201
      | .alreadyExistsLive => .thrownAlreadyExists500
      | .dbUniqueViolation => .dbError500
      | .initError => .initError500)

/-- WhatsAppService.deleteSession: ends the socket (external), removes
the id from the live registry, marks the durable row inactive. No
reconnect timer is touched: the setTimeout handle created on a
recoverable close is never retained by the service. -/
def deleteSession (st : ServiceState) (sid : String) : ServiceState :=
  { st with
      sessions := mapDelete st.sessions sid,
      sessionDb := dbUpdateSession st.sessionDb sid (fun r => { r with isActive := false }) }

/-- Firing of the reconnect timer scheduled on a recoverable close: the
callback runs `initializeWhatsAppConnection(sessionId)` (with the default
`usePairingCode = false`); the timer itself is consumed. -/
def fireReconnect (st : ServiceState) (sid : String) (initOk : Bool)
    (registered : Bool) (user : Option WAUser) : ServiceState × Bool :=
  let st0 := { st with pendingReconnects := st.pendingReconnects.erase sid }
  initializeWhatsAppConnection st0 sid false initOk registered user

/-- WhatsAppService.requestPairingCode: requires a live session with a
socket; the code produced by the external socket call is stored on the
session together with the phone number, persisted, and returned. -/
def requestPairingCode (st : ServiceState) (sid phoneNumber code : String) :
    ServiceState × Option String :=
  match sessionsLookup st.sessions sid with
  | some s =>
    if s.socket.isSome then
      let s1 := { s with pairingCode := some code, phoneNumber := some phoneNumber }
      ({ st with
          sessions := mapSet st.sessions sid s1,
          sessionDb := dbUpdateSession st.sessionDb sid
            (fun r => { r with pairingCode := some code, phoneNumber := some phoneNumber }) },
       some code)
    else (st, none)
  | none => (st, none)

/-- Status component of one handleConnectionUpdate step on a live
session, proved below to characterize the transition function: the
`connection` field dominates (close chooses CONNECTING or DISCONNECTED by
the logout flag, open chooses CONNECTED), else a qr payload chooses
QR_REQUIRED, else the status is unchanged. -/
def statusAfterUpdate (old : SessionStatus) (u : ConnUpdate) : SessionStatus :=
  match u.connection with
  | some .closed => if u.closeIsLoggedOut = false then .CONNECTING else .DISCONNECTED
  | some .opened => .CONNECTED
  | none =>
    match u.qr with
    | some _ => .QR_REQUIRED
    | none => old

/-- Scenario state: a fresh service after creating session `s1` for user
`u1` with a successfully initialized socket whose identity is the phone
`15551234567`. -/
def demoUser : WAUser :=
  ⟨"15551234567:12@s.whatsapp.net", some "Demo"⟩

/-- Scenario state after createSession succeeds. -/
def stCreated : ServiceState :=
  (createSession ⟨[], [], []⟩ "s1" "u1" false true true (some demoUser)).1

/-- Scenario state after a QR event with payload `1@xyz`. -/
def stAfterQr : ServiceState :=
  handleConnectionUpdate stCreated "s1" ⟨none, some "1@xyz", false⟩

/-- Scenario state after a recoverable connection close (schedules a
reconnect). -/
def stAfterClose : ServiceState :=
  handleConnectionUpdate stAfterQr "s1" ⟨some .closed, none, false⟩

/-- Scenario state after a connection open following the QR event. -/
def stAfterOpen : ServiceState :=
  handleConnectionUpdate stAfterQr "s1" ⟨some .opened, none, false⟩

/-- The live entry held by stAfterQr (spelled out for instantiations). -/
def sessAfterQr : WhatsAppSession :=
  ⟨"s1", some ⟨some demoUser⟩, .QR_REQUIRED, some (qrToDataURL "1@xyz"), none, none, none⟩

/-- A live session sitting in QR_REQUIRED (used to instantiate the
transition characterization). -/
def w7sess : WhatsAppSession :=
  ⟨"s1", none, .QR_REQUIRED, some "qr", none, none, none⟩

/-- A service state holding only `w7sess`. -/
def w7st : ServiceState :=
  ⟨[("s1", w7sess)], [], []⟩

end Sessions

/-! Theorems. Claim theorems are named `C<n>_...`; their witnesses and
counterexamples carry the matching suffix. Helper lemmas come first. -/

/-- C1: with `maxRetries = 3` and the consecutive-failure counter at 0,
an endpoint whose every attempt fails produces exactly 4 delivery
attempts (the first plus 3 retries), with backoff delays 1s, 2s, 4s
(each `min(2^a * 1000, 300000)` ms for a = 0, 1, 2) before the retries;
the delivery record of the final attempt ends FAILED (the three earlier
records stay RETRYING) and the failure counter ends at 4. -/
theorem C1_retry_count :
    (Webhook.runAlwaysFail 10 ⟨0, 3, none⟩ []).attempts = 4 ∧
    (Webhook.runAlwaysFail 10 ⟨0, 3, none⟩ []).delays = [1000, 2000, 4000] ∧
    (Webhook.runAlwaysFail 10 ⟨0, 3, none⟩ []).delays =
      [Webhook.calculateRetryDelay 0, Webhook.calculateRetryDelay 1,
       Webhook.calculateRetryDelay 2] ∧
    ((Webhook.runAlwaysFail 10 ⟨0, 3, none⟩ []).deliveries.map (fun d => d.status)) =
      [.FAILED, .RETRYING, .RETRYING, .RETRYING] ∧
    (Webhook.runAlwaysFail 10 ⟨0, 3, none⟩ []).webhook.retries = 4 := by
  decide

/-- C2: signing then verifying succeeds for every payload and secret and
every MAC primitive; a same-length signature differing from the genuine
one never verifies; and a different payload never verifies against the
original signature whenever its MAC digest differs from the original
digest (the HMAC-SHA256 primitive is an external-library parameter, so
digest distinctness is the hypothesis standing in for its collision
freeness). -/
theorem C2_signature_roundtrip (hmacHex : Webhook.Bytes → Webhook.Bytes → Webhook.Bytes)
    (payload secret : Webhook.Bytes) :
    Webhook.verifyWebhookSignature hmacHex payload
        (Webhook.createSignature hmacHex payload secret) secret = some true ∧
    (∀ sig : Webhook.Bytes,
        sig.length = (Webhook.createSignature hmacHex payload secret).length →
        sig ≠ Webhook.createSignature hmacHex payload secret →
        Webhook.verifyWebhookSignature hmacHex payload sig secret ≠ some true) ∧
    (∀ payload2 : Webhook.Bytes,
        hmacHex secret payload2 ≠ hmacHex secret payload →
        Webhook.verifyWebhookSignature hmacHex payload2
          (Webhook.createSignature hmacHex payload secret) secret ≠ some true) := by
  refine ⟨?_, ?_, ?_⟩
  · simp [Webhook.verifyWebhookSignature, Webhook.timingSafeEqual]
  · intro sig hlen hne
    simp [Webhook.verifyWebhookSignature, Webhook.timingSafeEqual, hlen, hne]
  · intro payload2 hne
    simp only [Webhook.verifyWebhookSignature, Webhook.timingSafeEqual,
      Webhook.createSignature]
    intro h
    by_cases hl : (hmacHex secret payload).length = (hmacHex secret payload2).length
    · rw [if_pos hl] at h
      have := of_decide_eq_true (Option.some.inj h)
      exact hne this.symm
    · rw [if_neg hl] at h
      cases h

/-- C2 witness: the round trip, a mutated same-length signature, and a
payload with a different digest, at concrete inputs with a concrete MAC.
-/
theorem C2_signature_roundtrip_witness :
    Webhook.verifyWebhookSignature Webhook.hmacConcat [1]
        (Webhook.createSignature Webhook.hmacConcat [1] [2]) [2] = some true ∧
    Webhook.verifyWebhookSignature Webhook.hmacConcat [1] [9, 9] [2] ≠ some true ∧
    Webhook.verifyWebhookSignature Webhook.hmacConcat [5]
        (Webhook.createSignature Webhook.hmacConcat [1] [2]) [2] ≠ some true :=
  ⟨(C2_signature_roundtrip Webhook.hmacConcat [1] [2]).1,
   (C2_signature_roundtrip Webhook.hmacConcat [1] [2]).2.1 [9, 9] (by decide) (by decide),
   (C2_signature_roundtrip Webhook.hmacConcat [1] [2]).2.2 [5] (by decide)⟩

/-- C4 counterexample: a delivery attempt answered 200 marks the new
delivery record SUCCESS, but the consecutive-failure counter `retries`
(here 2) is left untouched rather than reset to zero — no code path
writes `retries: 0`. -/
theorem C4_counterexample :
    ((Webhook.deliverWebhook ⟨2, 3, none⟩ [] (.response 200)).deliveries.map
      (fun d => d.status)) = [.SUCCESS] ∧
    ¬ (Webhook.deliverWebhook ⟨2, 3, none⟩ [] (.response 200)).webhook.retries = 0 := by
  decide

/-- C4 amended: after a delivery attempt with a 2xx response, the newly
created delivery record is marked SUCCESS with one attempt, no retry is
scheduled, and the webhook counters — including the consecutive-failure
counter `retries` — are left exactly as they were (the counter is NOT
reset to zero). -/
theorem C4_success_keeps_counter (w : Webhook.WebhookCounters)
    (ds : List Webhook.DeliveryRow) (s : Nat) (h1 : 200 ≤ s) (h2 : s < 300) :
    Webhook.deliverWebhook w ds (.response s) =
      ⟨w, ⟨.SUCCESS, 1⟩ :: ds, none⟩ := by
  have h5 : s < 500 := by omega
  simp [Webhook.deliverWebhook, Webhook.updateDeliveryStatus, h5, h1, h2]

/-- C4 witness: the amended statement at status 200 with the counter at
2. -/
theorem C4_success_keeps_counter_witness :
    Webhook.deliverWebhook ⟨2, 3, none⟩ [] (.response 200) =
      ⟨⟨2, 3, none⟩, [⟨.SUCCESS, 1⟩], none⟩ :=
  C4_success_keeps_counter ⟨2, 3, none⟩ [] 200 (by decide) (by decide)

/-- C10: verifyWebhookSignature returns a boolean exactly when the
supplied signature has the byte length of the expected hex digest (64
for HMAC-SHA256); any other signature length makes crypto.timingSafeEqual
throw (modelled `none`) instead of returning false. -/
theorem C10_length_mismatch_throws
    (hmacHex : Webhook.Bytes → Webhook.Bytes → Webhook.Bytes)
    (payload sig secret : Webhook.Bytes)
    (hdigest : (hmacHex secret payload).length = 64) :
    Webhook.verifyWebhookSignature hmacHex payload sig secret = none ↔
      sig.length ≠ 64 := by
  simp only [Webhook.verifyWebhookSignature, Webhook.timingSafeEqual,
    Webhook.createSignature, hdigest]
  by_cases h : sig.length = 64
  · simp [h]
  · simp [h]

/-- C5: a webhook receives a delivery attempt for an event of a session
exactly when it is stored, active, owned by the session owner, and its
event set contains the event or the wildcard; every other webhook
(other owner, deactivated, or non-matching event set) receives zero
delivery attempts and zero delivery records. -/
theorem C5_fanout_targets (webhookDb : List Webhook.WebhookRow)
    (sessionDb : List SessionRow) (sid event : String) (session : SessionRow)
    (w : Webhook.WebhookRow)
    (hs : sessionDb.find? (fun r => r.sessionId == sid) = some session) :
    w ∈ Webhook.sendWebhookTargets webhookDb sessionDb sid event ↔
      w ∈ webhookDb ∧ w.isActive = true ∧ w.userId = session.userId ∧
        (event ∈ w.events ∨ "*" ∈ w.events) := by
  simp only [Webhook.sendWebhookTargets, hs, Webhook.relevantWebhooks,
    Webhook.getUserWebhooks, List.mem_filter, Bool.and_eq_true, Bool.or_eq_true,
    beq_iff_eq, List.elem_iff]
  constructor
  · rintro ⟨⟨hdb, hu, ha⟩, hev⟩
    exact ⟨hdb, ha, hu, by simpa using hev⟩
  · rintro ⟨hdb, ha, hu, hev⟩
    exact ⟨⟨hdb, hu, ha⟩, by simpa using hev⟩

/-- C5 witness: with one session owned by `u1`, a matching active webhook
of `u1` is attempted, and an identical webhook owned by the unrelated
`u2` is not. -/
theorem C5_fanout_targets_witness :
    (⟨"w1", "u1", "http://a", ["message.received"], none, true, 0, 3, none⟩ :
        Webhook.WebhookRow) ∈
      Webhook.sendWebhookTargets
        [⟨"w1", "u1", "http://a", ["message.received"], none, true, 0, 3, none⟩,
         ⟨"w2", "u2", "http://a", ["message.received"], none, true, 0, 3, none⟩]
        [⟨"s1", "u1", "CONNECTED", true, none, none, none, none⟩]
        "s1" "message.received" ∧
    (⟨"w2", "u2", "http://a", ["message.received"], none, true, 0, 3, none⟩ :
        Webhook.WebhookRow) ∉
      Webhook.sendWebhookTargets
        [⟨"w1", "u1", "http://a", ["message.received"], none, true, 0, 3, none⟩,
         ⟨"w2", "u2", "http://a", ["message.received"], none, true, 0, 3, none⟩]
        [⟨"s1", "u1", "CONNECTED", true, none, none, none, none⟩]
        "s1" "message.received" := by
  constructor
  · exact (C5_fanout_targets _ _ "s1" "message.received"
      ⟨"s1", "u1", "CONNECTED", true, none, none, none, none⟩ _ (by decide)).mpr
      ⟨by simp, rfl, rfl, Or.inl (by simp)⟩
  · intro hmem
    have h := (C5_fanout_targets _ _ "s1" "message.received"
      ⟨"s1", "u1", "CONNECTED", true, none, none, none, none⟩ _ (by decide)).mp hmem
    exact absurd h.2.2.1 (by decide)

/-- C10 witness: a 3-byte signature against a 64-byte digest makes the
verification throw. -/
theorem C10_length_mismatch_throws_witness :
    Webhook.verifyWebhookSignature Webhook.hmacFixed64 [1] [0, 0, 0] [2] = none :=
  (C10_length_mismatch_throws Webhook.hmacFixed64 [1] [0, 0, 0] [2] (by decide)).mpr
    (by decide)

/-- Looking up a key right after Map.set yields the stored value. -/
theorem Sessions.sessionsLookup_mapSet (m : List (String × Sessions.WhatsAppSession))
    (sid : String) (s : Sessions.WhatsAppSession) :
    Sessions.sessionsLookup (Sessions.mapSet m sid s) sid = some s := by
  induction m with
  | nil => simp [Sessions.mapSet, Sessions.sessionsLookup]
  | cons p rest ih =>
    by_cases h : p.1 == sid
    · simp [Sessions.mapSet, Sessions.sessionsLookup, h]
    · simpa [Sessions.mapSet, Sessions.sessionsLookup, h] using ih

/-- Looking up a key right after Map.delete yields nothing. -/
theorem Sessions.sessionsLookup_mapDelete (m : List (String × Sessions.WhatsAppSession))
    (sid : String) :
    Sessions.sessionsLookup (Sessions.mapDelete m sid) sid = none := by
  induction m with
  | nil => rfl
  | cons p rest ih =>
    by_cases h : p.1 == sid
    · rw [show Sessions.mapDelete (p :: rest) sid = Sessions.mapDelete rest sid by
        simp [Sessions.mapDelete, h]]
      exact ih
    · rw [show Sessions.mapDelete (p :: rest) sid = p :: Sessions.mapDelete rest sid by
        simp [Sessions.mapDelete, h]]
      rw [show Sessions.sessionsLookup (p :: Sessions.mapDelete rest sid) sid =
          Sessions.sessionsLookup (Sessions.mapDelete rest sid) sid by
        unfold Sessions.sessionsLookup
        rw [@List.find?_cons_of_neg _ (fun q => q.1 == sid) p
          (Sessions.mapDelete rest sid) h]]
      exact ih

/-- find? success is preserved by mapping a function that does not change
the predicate. -/
theorem find?_isSome_map {α : Type} (g : α → α) (p : α → Bool)
    (hp : ∀ a, p (g a) = p a) :
    ∀ l : List α, ((l.map g).find? p).isSome = (l.find? p).isSome := by
  intro l
  induction l with
  | nil => rfl
  | cons a l ih =>
    cases h : p a with
    | false =>
      rw [List.map_cons, List.find?_cons_of_neg _ (by simp [hp a, h]),
        List.find?_cons_of_neg _ (by simp [h])]
      exact ih
    | true =>
      rw [List.map_cons, List.find?_cons_of_pos _ (by simp [hp a, h]),
        List.find?_cons_of_pos _ (by simp [h])]
      rfl

/-- A durable update that does not rewrite session ids preserves the
duplicate check. -/
theorem Sessions.dbHasSession_update (db : List SessionRow) (sid sid2 : String)
    (f : SessionRow → SessionRow) (hf : ∀ r, (f r).sessionId = r.sessionId) :
    Sessions.dbHasSession (Sessions.dbUpdateSession db sid2 f) sid =
      Sessions.dbHasSession db sid := by
  unfold Sessions.dbHasSession Sessions.dbUpdateSession
  rw [find?_isSome_map]
  intro r
  by_cases h2 : r.sessionId == sid2 <;> simp [h2, hf]

/-- Specialization of the previous lemma to status-only updates. -/
theorem Sessions.dbHasSession_update_status (db : List SessionRow) (sid sid2 st0 : String) :
    Sessions.dbHasSession
      (Sessions.dbUpdateSession db sid2 (fun r => { r with status := st0 })) sid =
      Sessions.dbHasSession db sid :=
  Sessions.dbHasSession_update db sid sid2 _ (fun _ => rfl)

/-- Appending a row for `sid` makes the duplicate check succeed. -/
theorem Sessions.dbHasSession_append (db : List SessionRow) (row : SessionRow)
    (sid : String) (h : row.sessionId = sid) :
    Sessions.dbHasSession (db ++ [row]) sid = true := by
  induction db with
  | nil => simp [Sessions.dbHasSession, h]
  | cons r db ih =>
    by_cases h2 : (r.sessionId == sid) = true
    · rw [List.cons_append]
      unfold Sessions.dbHasSession
      rw [@List.find?_cons_of_pos _ (fun r0 => r0.sessionId == sid) r (db ++ [row]) h2]
      rfl
    · rw [List.cons_append]
      unfold Sessions.dbHasSession at ih ⊢
      rw [@List.find?_cons_of_neg _ (fun r0 => r0.sessionId == sid) r (db ++ [row]) h2]
      exact ih

/-- createSession on a fresh id with a healthy connection initialization
succeeds, persists the durable row, and registers the live entry. -/
theorem Sessions.createSession_fresh_ok (st : Sessions.ServiceState) (sid uid : String)
    (p r : Bool) (u : Option Sessions.WAUser)
    (hdb : Sessions.dbHasSession st.sessionDb sid = false)
    (hlive : Sessions.sessionsLookup st.sessions sid = none) :
    (Sessions.createSession st sid uid p true r u).2 = .created ∧
    Sessions.dbHasSession (Sessions.createSession st sid uid p true r u).1.sessionDb sid
      = true ∧
    (Sessions.sessionsLookup (Sessions.createSession st sid uid p true r u).1.sessions
      sid).isSome = true := by
  simp only [Sessions.createSession, hlive, hdb, Option.isSome_none,
    Bool.false_eq_true, if_false, Sessions.initializeWhatsAppConnection,
    Sessions.sessionsLookup_mapSet]
  rw [if_neg (by decide : ¬ (true = false))]
  by_cases hc : p = true ∧ r = false
  · simp only [if_pos hc]
    refine ⟨rfl, ?_, by simp [Sessions.sessionsLookup_mapSet]⟩
    rw [Sessions.dbHasSession_update_status]
    exact Sessions.dbHasSession_append _ _ _ rfl
  · simp only [if_neg hc]
    exact ⟨rfl, Sessions.dbHasSession_append _ _ _ rfl,
      by simp [Sessions.sessionsLookup_mapSet]⟩

/-- createSession on a fresh id whose connection initialization throws
reports the propagated error, leaves the live entry registered with
status ERROR, and leaves the durable row created. -/
theorem Sessions.createSession_fresh_initFail (st : Sessions.ServiceState)
    (sid uid : String) (p r : Bool) (u : Option Sessions.WAUser)
    (hdb : Sessions.dbHasSession st.sessionDb sid = false)
    (hlive : Sessions.sessionsLookup st.sessions sid = none) :
    (Sessions.createSession st sid uid p false r u).2 = .initError ∧
    ((Sessions.sessionsLookup (Sessions.createSession st sid uid p false r u).1.sessions
      sid).map (fun s => s.status)) = some .ERROR ∧
    Sessions.dbHasSession (Sessions.createSession st sid uid p false r u).1.sessionDb sid
      = true := by
  simp only [Sessions.createSession, hlive, hdb, Option.isSome_none,
    Bool.false_eq_true, if_false, Sessions.initializeWhatsAppConnection,
    Sessions.sessionsLookup_mapSet]
  rw [if_pos True.intro]
  refine ⟨rfl, by simp [Sessions.sessionsLookup_mapSet], ?_⟩
  rw [Sessions.dbHasSession_update_status]
  exact Sessions.dbHasSession_append _ _ _ rfl

/-- C3: two sequential createSession calls through the POST /api/sessions
handler with the same fresh id (the first with a healthy connection
initialization) yield exactly one created response and one
`Session already exists` failure; moreover a duplicate is reported
whenever the id is held by the durable store (route check) or by the live
registry (service check), whichever of the two holds it. -/
theorem C3_duplicate_create (st : Sessions.ServiceState) (sid uid1 uid2 : String)
    (p1 r1 p2 i2 r2 : Bool) (u1 u2 : Option Sessions.WAUser)
    (hdb : Sessions.dbHasSession st.sessionDb sid = false)
    (hlive : Sessions.sessionsLookup st.sessions sid = none) :
    (Sessions.postSessionsHandler st sid uid1 p1 true r1 u1).2 = .created201 ∧
    (Sessions.postSessionsHandler
      (Sessions.postSessionsHandler st sid uid1 p1 true r1 u1).1
      sid uid2 p2 i2 r2 u2).2 = .alreadyExists400 ∧
    (∀ (st2 : Sessions.ServiceState) (uid : String) (p i r : Bool)
        (u : Option Sessions.WAUser),
      (Sessions.dbHasSession st2.sessionDb sid = true ∨
        (Sessions.sessionsLookup st2.sessions sid).isSome = true) →
      Sessions.isAlreadyExists (Sessions.postSessionsHandler st2 sid uid p i r u).2
        = true) := by
  have hfresh := Sessions.createSession_fresh_ok st sid uid1 p1 r1 u1 hdb hlive
  refine ⟨?_, ?_, ?_⟩
  · simp only [Sessions.postSessionsHandler, hdb, Bool.false_eq_true, if_false]
    rw [hfresh.1]
  · simp only [Sessions.postSessionsHandler, hdb, Bool.false_eq_true, if_false]
    rw [if_pos hfresh.2.1]
  · intro st2 uid p i r u h
    by_cases hd : Sessions.dbHasSession st2.sessionDb sid
    · simp [Sessions.postSessionsHandler, hd, Sessions.isAlreadyExists]
    · have hl : (Sessions.sessionsLookup st2.sessions sid).isSome = true := by
        rcases h with h | h
        · exact absurd h hd
        · exact h
      simp [Sessions.postSessionsHandler, hd, Sessions.createSession, hl,
        Sessions.isAlreadyExists]

/-- C3 witness: both calls from the empty service state. -/
theorem C3_duplicate_create_witness :
    (Sessions.postSessionsHandler ⟨[], [], []⟩ "s1" "u1" false true false none).2
      = .created201 ∧
    (Sessions.postSessionsHandler
      (Sessions.postSessionsHandler ⟨[], [], []⟩ "s1" "u1" false true false none).1
      "s1" "u2" false true false none).2 = .alreadyExists400 :=
  ⟨(C3_duplicate_create ⟨[], [], []⟩ "s1" "u1" "u2" false false false true false
      none none rfl rfl).1,
   (C3_duplicate_create ⟨[], [], []⟩ "s1" "u1" "u2" false false false true false
      none none rfl rfl).2.1⟩

/-- C9: when connection initialization throws inside createSession on a
fresh id, the error propagates (result initError), the live registry
keeps the entry with status ERROR, the durable row stays created, and a
subsequent createSession with the same id fails with the
`Session already exists` error from the live-registry check. -/
theorem C9_create_not_rolled_back (st : Sessions.ServiceState) (sid uid uid2 : String)
    (p r p2 i2 r2 : Bool) (u u2 : Option Sessions.WAUser)
    (hdb : Sessions.dbHasSession st.sessionDb sid = false)
    (hlive : Sessions.sessionsLookup st.sessions sid = none) :
    (Sessions.createSession st sid uid p false r u).2 = .initError ∧
    ((Sessions.sessionsLookup (Sessions.createSession st sid uid p false r u).1.sessions
      sid).map (fun s => s.status)) = some .ERROR ∧
    Sessions.dbHasSession (Sessions.createSession st sid uid p false r u).1.sessionDb sid
      = true ∧
    (Sessions.createSession (Sessions.createSession st sid uid p false r u).1
      sid uid2 p2 i2 r2 u2).2 = .alreadyExistsLive := by
  have hfail := Sessions.createSession_fresh_initFail st sid uid p r u hdb hlive
  refine ⟨hfail.1, hfail.2.1, hfail.2.2, ?_⟩
  have hl : (Sessions.sessionsLookup
      (Sessions.createSession st sid uid p false r u).1.sessions sid).isSome = true := by
    rcases hmap : Sessions.sessionsLookup
      (Sessions.createSession st sid uid p false r u).1.sessions sid with _ | s
    · rw [hmap] at hfail
      simp at hfail
    · rfl
  generalize hX : (Sessions.createSession st sid uid p false r u).1 = X at hl
  simp [Sessions.createSession, hl]

/-- C6 counterexample: a recoverable close schedules a reconnect timer
for `s1`; deleting the session removes it from the registry but the
pending reconnect timer is NOT cancelled (deleteSession never stores or
clears the setTimeout handle), contradicting the claim that deletion
cancels any pending reconnect timer. -/
theorem C6_counterexample :
    Sessions.stAfterClose.pendingReconnects = ["s1"] ∧
    (Sessions.deleteSession Sessions.stAfterClose "s1").sessions = [] ∧
    (Sessions.deleteSession Sessions.stAfterClose "s1").pendingReconnects = ["s1"] := by
  decide

/-- C6 amended: deleteSession leaves any pending reconnect timer in
place (no handle is retained to cancel), but the observable claim part
holds — the deleted id is gone from the live registry, and when the
pending reconnect fires for it, the connection initialization fails on
the missing registry entry and performs no session or durable-store
change, so no further status transition is observed for that id. -/
theorem C6_delete_no_transition (st : Sessions.ServiceState) (sid : String)
    (i r : Bool) (u : Option Sessions.WAUser) :
    (Sessions.deleteSession st sid).pendingReconnects = st.pendingReconnects ∧
    Sessions.sessionsLookup (Sessions.deleteSession st sid).sessions sid = none ∧
    (Sessions.fireReconnect (Sessions.deleteSession st sid) sid i r u).1.sessions =
      (Sessions.deleteSession st sid).sessions ∧
    (Sessions.fireReconnect (Sessions.deleteSession st sid) sid i r u).1.sessionDb =
      (Sessions.deleteSession st sid).sessionDb ∧
    (Sessions.fireReconnect (Sessions.deleteSession st sid) sid i r u).2 = true := by
  refine ⟨rfl, Sessions.sessionsLookup_mapDelete _ _, ?_, ?_, ?_⟩ <;>
  · cases i <;>
      simp [Sessions.fireReconnect, Sessions.initializeWhatsAppConnection,
        Sessions.deleteSession, Sessions.sessionsLookup_mapDelete]

/-- C7 counterexample: reachable run in which a single connection-open
step moves the session status directly from QR_REQUIRED to CONNECTED,
never passing through CONNECTING — contradicting the claim that no
transition step skips CONNECTING between the REQUIRED states and
CONNECTED. -/
theorem C7_counterexample :
    (Sessions.sessionsLookup Sessions.stAfterQr.sessions "s1").map (fun s => s.status)
      = some .QR_REQUIRED ∧
    (Sessions.sessionsLookup Sessions.stAfterOpen.sessions "s1").map (fun s => s.status)
      = some .CONNECTED := by
  decide

/-- C7 amended: one handleConnectionUpdate step on a live session sets
the status entirely from the update — close yields CONNECTING
(recoverable) or DISCONNECTED (logout), open yields CONNECTED, otherwise
a qr payload yields QR_REQUIRED, otherwise the status is unchanged. In
particular CONNECTED is entered only on a connection-open and
QR_REQUIRED only on a qr payload, but nothing forces a CONNECTING step
in between: an open received in QR_REQUIRED or PAIRING_REQUIRED jumps
directly to CONNECTED, and a qr received in CONNECTED jumps directly to
QR_REQUIRED. -/
theorem C7_status_step (st : Sessions.ServiceState) (sid : String)
    (u : Sessions.ConnUpdate) (s0 : Sessions.WhatsAppSession)
    (h : Sessions.sessionsLookup st.sessions sid = some s0) :
    (Sessions.sessionsLookup (Sessions.handleConnectionUpdate st sid u).sessions
      sid).map (fun s => s.status) = some (Sessions.statusAfterUpdate s0.status u) := by
  rcases u with ⟨conn, qr, lo⟩
  cases conn with
  | none =>
    cases qr <;>
      simp [Sessions.handleConnectionUpdate, h, Sessions.sessionsLookup_mapSet,
        Sessions.statusAfterUpdate]
  | some ev =>
    cases ev with
    | closed =>
      cases lo <;> cases qr <;>
        simp [Sessions.handleConnectionUpdate, h, Sessions.sessionsLookup_mapSet,
          Sessions.statusAfterUpdate]
    | opened =>
      cases qr <;>
      · simp only [Sessions.handleConnectionUpdate, h]
        rcases hb : s0.socket with _ | so <;>
          simp [hb, Sessions.sessionsLookup_mapSet, Sessions.statusAfterUpdate]
        rcases hu : so.user with _ | usr <;>
          simp [hu, Sessions.sessionsLookup_mapSet, Sessions.statusAfterUpdate]

/-- C7 witness: the characterization instantiated on a QR_REQUIRED
session receiving a connection-open update. -/
theorem C7_status_step_witness :
    (Sessions.sessionsLookup
      (Sessions.handleConnectionUpdate Sessions.w7st "s1"
        ⟨some .opened, none, false⟩).sessions "s1").map (fun s => s.status) =
      some (Sessions.statusAfterUpdate Sessions.w7sess.status
        ⟨some .opened, none, false⟩) :=
  C7_status_step Sessions.w7st "s1" ⟨some .opened, none, false⟩ Sessions.w7sess
    (by decide)

/-- C8 counterexample: reachable run create → QR event → recoverable
close, after which the session status is CONNECTING while `qrCode` is
still present — contradicting the claim that qrCode is present only
while the status is QR_REQUIRED. -/
theorem C8_counterexample :
    (Sessions.sessionsLookup Sessions.stAfterClose.sessions "s1").map
      (fun s => s.status) = some .CONNECTING ∧
    ((Sessions.sessionsLookup Sessions.stAfterClose.sessions "s1").bind
      (fun s => s.qrCode)).isSome = true := by
  decide

/-- C8 amended: every connection-open step on a live session leaves it
CONNECTED with qrCode and pairingCode cleared, and the claimed scenario
holds (QR event puts `s1` in QR_REQUIRED with a nonempty qrCode; the
following open yields CONNECTED with qrCode cleared and phoneNumber the
identity phone 15551234567); however the ephemeral fields are not cleared
on the recoverable-close transition to CONNECTING, so presence of qrCode
or pairingCode is not restricted to the corresponding REQUIRED status. -/
theorem C8_cleared_on_connected :
    (∀ (st : Sessions.ServiceState) (sid : String) (u : Sessions.ConnUpdate)
        (s0 : Sessions.WhatsAppSession),
      Sessions.sessionsLookup st.sessions sid = some s0 →
      u.connection = some .opened →
      ∃ s1, Sessions.sessionsLookup
          (Sessions.handleConnectionUpdate st sid u).sessions sid = some s1 ∧
        s1.status = .CONNECTED ∧ s1.qrCode = none ∧ s1.pairingCode = none) ∧
    (Sessions.sessionsLookup Sessions.stAfterQr.sessions "s1").map (fun s => s.status)
      = some .QR_REQUIRED ∧
    ((Sessions.sessionsLookup Sessions.stAfterQr.sessions "s1").bind (fun s => s.qrCode))
      = some (Sessions.qrToDataURL "1@xyz") ∧
    Sessions.qrToDataURL "1@xyz" ≠ "" ∧
    (Sessions.sessionsLookup Sessions.stAfterOpen.sessions "s1").map (fun s => s.status)
      = some .CONNECTED ∧
    ((Sessions.sessionsLookup Sessions.stAfterOpen.sessions "s1").bind (fun s => s.qrCode))
      = none ∧
    ((Sessions.sessionsLookup Sessions.stAfterOpen.sessions "s1").bind
      (fun s => s.phoneNumber)) = some "15551234567" := by
  constructor
  · intro st sid u s0 h hopen
    rcases u with ⟨conn, qr, lo⟩
    simp only at hopen
    subst hopen
    cases qr <;>
    · simp only [Sessions.handleConnectionUpdate, h]
      refine ⟨_, Sessions.sessionsLookup_mapSet _ _ _, ?_⟩
      rcases hb : s0.socket with _ | so <;> simp [hb]
      rcases hu : so.user with _ | usr <;> simp [hu]
  · refine ⟨?_, ?_, ?_, ?_, ?_, ?_⟩ <;> decide

/-- C8 witness: the clearing statement instantiated on the scenario
state after the QR event, receiving the connection open. -/
theorem C8_cleared_on_connected_witness :
    ∃ s1, Sessions.sessionsLookup Sessions.stAfterOpen.sessions "s1" = some s1 ∧
      s1.status = .CONNECTED ∧ s1.qrCode = none ∧ s1.pairingCode = none :=
  C8_cleared_on_connected.1 Sessions.stAfterQr "s1" ⟨some .opened, none, false⟩
    Sessions.sessAfterQr (by decide) rfl

/-- C9 witness: from the empty service state. -/
theorem C9_create_not_rolled_back_witness :
    (Sessions.createSession ⟨[], [], []⟩ "s1" "u1" false false false none).2
      = .initError ∧
    ((Sessions.sessionsLookup
      (Sessions.createSession ⟨[], [], []⟩ "s1" "u1" false false false none).1.sessions
      "s1").map (fun s => s.status)) = some .ERROR ∧
    (Sessions.createSession
      (Sessions.createSession ⟨[], [], []⟩ "s1" "u1" false false false none).1
      "s1" "u2" false true false none).2 = .alreadyExistsLive :=
  ⟨(C9_create_not_rolled_back ⟨[], [], []⟩ "s1" "u1" "u2" false false false true false
      none none rfl rfl).1,
   (C9_create_not_rolled_back ⟨[], [], []⟩ "s1" "u1" "u2" false false false true false
      none none rfl rfl).2.1,
   (C9_create_not_rolled_back ⟨[], [], []⟩ "s1" "u1" "u2" false false false true false
      none none rfl rfl).2.2.2⟩

end Baileys
